import Mathlib

/-! ns3-openflow-loadbalancer: the simulation harness and its option setters

A shallow embedding of `openflow-loadbalancer.h` and `openflow-topology.cc`.

* The three globals `verbose`, `searver_number`, `lb_type` are the fields of
  `Globals`; every option setter takes the globals and returns its `bool`
  result together with the globals it leaves behind.
* A `std::string` is a Lean `String`.  The setters only compare a string with
  ASCII literals and scan it for ASCII whitespace, signs and digits; a
  non-ASCII character stands for a run of bytes `>= 0x80`, which are none of
  these, so working on characters agrees with working on bytes.
* A C `int` is an `Int` in the range `[-2^31, 2^31)`.
-/

namespace OpenFlowLoadBalancer

/-! ## openflow-loadbalancer.h -/

/-- The macro `#define OF_DEFAULT_SEARVER_NUMBER 4`. -/
def OF_DEFAULT_SEARVER_NUMBER : Int := 4

/-- The `enum oflb_type`: the type of load balancer. -/
inductive oflb_type where
  | OFLB_RANDOM
  | OFLB_ROUND_ROBIN
  | OFLB_IP_HASHING
  deriving DecidableEq, Repr

open oflb_type

/-! ## openflow-topology.cc: globals and option setters -/

/-- The file-scope variables of `openflow-topology.cc` (lines 48-50). -/
structure Globals where
  verbose : Bool
  searver_number : Int
  lb_type : oflb_type
  deriving DecidableEq, Repr

/-- The initialisers of the three globals:
`verbose = false`, `searver_number = OF_DEFAULT_SEARVER_NUMBER`,
`lb_type = OFLB_RANDOM`. -/
def initialGlobals : Globals :=
  { verbose := false
    searver_number := OF_DEFAULT_SEARVER_NUMBER
    lb_type := OFLB_RANDOM }

/-- Function `bool SetVerbose (std::string value)`: sets `verbose` and returns true. -/
def SetVerbose (_value : String) (g : Globals) : Bool × Globals :=
  (true, { g with verbose := true })

/-- Function `bool SetType (std::string value)`: three string comparisons in order;
the first that matches assigns `lb_type` and returns true, otherwise control
leaves the `try` block and reaches the final `return false`.  Comparing a
`std::string` with a literal does not throw, so the `catch` is never entered. -/
def SetType (value : String) (g : Globals) : Bool × Globals :=
  if value = "random" then
    (true, { g with lb_type := OFLB_RANDOM })
  else if value = "round-robin" then
    (true, { g with lb_type := OFLB_ROUND_ROBIN })
  else if value = "ip-hashing" then
    (true, { g with lb_type := OFLB_IP_HASHING })
  else
    (false, g)

/-! ### `atoi` and `SetSearverNumber` -/

/-- The C library's `isspace` in the "C" locale: space, `\t`, `\n`, `\v`, `\f`, `\r`. -/
def isspace (c : Char) : Bool :=
  c.toNat = 32 || (9 ≤ c.toNat && c.toNat ≤ 13)

/-- The C library's `isdigit`: one of `'0'`..`'9'`. -/
def isdigit (c : Char) : Bool :=
  48 ≤ c.toNat && c.toNat ≤ 57

/-- The call `value.c_str ()`: the characters of the string as a NUL-terminated C
string, that is, what a reader of the buffer sees before the first NUL. -/
def c_str (value : String) : List Char :=
  value.data.takeWhile (fun c => c.toNat != 0)

/-- The digit loop of `atoi`: while the next character is a digit, multiply
the accumulator by ten and add the digit. -/
def atoiDigits : List Char → Nat → Nat
  | [], acc => acc
  | c :: cs, acc =>
    if isdigit c then atoiDigits cs (acc * 10 + (c.toNat - 48)) else acc

/-- The sign step of `atoi`: one optional `-` or `+`, then the digit loop. -/
def atoiSigned : List Char → Int
  | [] => 0
  | c :: cs =>
    if c = '-' then -(atoiDigits cs 0 : Int)
    else if c = '+' then (atoiDigits cs 0 : Int)
    else (atoiDigits (c :: cs) 0 : Int)

/-- The whitespace loop of `atoi`: skip `isspace` characters. -/
def atoiSkipSpace : List Char → List Char
  | [] => []
  | c :: cs => if isspace c then atoiSkipSpace cs else c :: cs

/-- The C library's `int atoi (const char *nptr)` with a 32-bit `int`: skip
whitespace, read an optional sign and the decimal digits that follow.  When
the value read is not representable in an `int` the behaviour is undefined:
the result is `none`. -/
def atoi (nptr : List Char) : Option Int :=
  let v := atoiSigned (atoiSkipSpace nptr)
  if -2147483648 ≤ v ∧ v ≤ 2147483647 then some v else none

/-- Function `bool SetSearverNumber (std::string value)`: assigns
`atoi (value.c_str ())` to `searver_number` and returns true.  `atoi` does not
throw, so neither the `catch` nor the trailing `return false` is reached.
The result is `none` exactly when `atoi` has undefined behaviour. -/
def SetSearverNumber (value : String) (g : Globals) : Option (Bool × Globals) :=
  match atoi (c_str value) with
  | some n => some (true, { g with searver_number := n })
  | none => none

/-- The number a string of decimal digits denotes, most significant digit
first: each digit counts for itself times ten to the number of digits after
it. -/
def decimalValue : List Char → Nat
  | [] => 0
  | c :: cs => (c.toNat - 48) * 10 ^ cs.length + decimalValue cs

/-- The reading of an option value as a server count, in the words of the
specification: the value of the longest optionally-signed decimal prefix of
the string after its leading whitespace, and 0 when there is no such
prefix. -/
def leadingInteger (value : String) : Int :=
  match value.data.dropWhile isspace with
  | '-' :: cs => -(decimalValue (cs.takeWhile isdigit) : Int)
  | '+' :: cs => (decimalValue (cs.takeWhile isdigit) : Int)
  | cs => (decimalValue (cs.takeWhile isdigit) : Int)

/-! ### `main` -/

/-- One `NS_LOG_INFO` statement: its argument is a string literal or, at
line 120, the integer `searver_number`. -/
inductive LogEntry where
  | text (msg : String)
  | number (n : Int)
  deriving DecidableEq, Repr

/-- A net device created by `csma.Install`: the node it is attached to and
the CSMA channel (one per `Install` call, numbered in call order) it sits
on. -/
structure NetDevice where
  node : Nat
  channel : Nat
  deriving DecidableEq, Repr

/-- The controllers `main` can create. -/
inductive Controller where
  | DropController
  deriving DecidableEq, Repr

/-- What `swtch.Install (switchNode, switchDevices, controller)` puts on the
switch node: an OpenFlow switch device over the given ports, driven by the
given controller. -/
structure OpenFlowSwitch where
  node : Nat
  ports : List NetDevice
  controller : Controller
  deriving DecidableEq, Repr

/-- Ways a run of the model can stop without a result. -/
inductive Fault where
  | outOfRange
  | outOfFuel
  deriving DecidableEq, Repr

/-- The call `NodeContainer::Create (uint32_t n)`: `n` new nodes, numbered
consecutively from the next free node id. -/
def NodeContainer.Create (nextId n : Nat) : List Nat :=
  (List.range n).map (fun k => nextId + k)

/-- The call `Get (uint32_t i)` on a node or device container: its `i`-th
element; an index past the end has no defined result. -/
def Container.Get {α : Type} (c : List α) (i : Nat) : Except Fault α :=
  match c.get? i with
  | some x => .ok x
  | none => .error Fault.outOfRange

/-- The call `CsmaHelper::Install (const NodeContainer &c)`: one new channel, and
one device on it for each node of `c`, in the order of `c`. -/
def CsmaHelper.Install (channel : Nat) (c : List Nat) : List NetDevice :=
  c.map (fun nd => { node := nd, channel := channel })

/-- The variables the link-building loop writes: the two device containers,
and the number of `csma.Install` calls made so far. -/
structure Links where
  searverDevices : List NetDevice
  switchDevices : List NetDevice
  installs : Nat
  deriving DecidableEq, Repr

/-- The loop of lines 135-140,
`for (int i = 0; i < searver_number; i++)`, started at `i`:
each iteration installs a link over `NodeContainer (searvers.Get (i),
csmaSwitch)` and adds `link.Get (0)` to `searverDevices` and `link.Get (1)`
to `switchDevices`.  `fuel` bounds the number of iterations. -/
def linkLoop (searver_number : Int) (searvers csmaSwitch : List Nat) :
    Nat → Int → Links → Except Fault Links
  | fuel, i, st =>
    if i < searver_number then
      match fuel with
      | 0 => .error Fault.outOfFuel
      | fuel + 1 =>
        match Container.Get searvers i.toNat with
        | .error e => .error e
        | .ok s =>
          let link := CsmaHelper.Install st.installs (s :: csmaSwitch)
          match Container.Get link 0, Container.Get link 1 with
          | .ok d0, .ok d1 =>
            linkLoop searver_number searvers csmaSwitch fuel (i + 1)
              { searverDevices := st.searverDevices ++ [d0]
                switchDevices := st.switchDevices ++ [d1]
                installs := st.installs + 1 }
          | .error e, _ => .error e
          | _, .error e => .error e
    else .ok st

/-- The `switch (lb_type)` of lines 146-161: the log statement of the
selected case and what, if anything, is installed on the switch node.  Only
the `OFLB_RANDOM` case creates a controller and calls `swtch.Install`; the
other two cases log and `break`. -/
def policyDispatch (lb_type : oflb_type) (switchNode : Nat)
    (switchDevices : List NetDevice) : List LogEntry × Option OpenFlowSwitch :=
  match lb_type with
  | OFLB_RANDOM =>
    ([LogEntry.text "Using Random Load Balancer."],
     some { node := switchNode, ports := switchDevices,
            controller := Controller.DropController })
  | OFLB_ROUND_ROBIN =>
    ([LogEntry.text "Using Round-Robin Load Balancer."], none)
  | OFLB_IP_HASHING =>
    ([LogEntry.text "Using IP-Hashing Load Balancer."], none)

/-- What `main` has set up when it reaches `Simulator::Run ()`. -/
structure Simulation where
  /-- the `NS_LOG_INFO` statements executed, in order -/
  log : List LogEntry
  /-- the log components switched on by `LogComponentEnable` -/
  logComponents : List String
  searvers : List Nat
  csmaSwitch : List Nat
  searverDevices : List NetDevice
  switchDevices : List NetDevice
  /-- number of `csma.Install` calls, one per iteration of the link loop -/
  installs : Nat
  /-- what `swtch.Install` put on the switch node, if it was called -/
  switch : Option OpenFlowSwitch
  /-- the nodes handed to `internet.Install` -/
  internet : List Nat
  /-- the devices handed to `ipv4.Assign` -/
  addressed : List NetDevice
  deriving DecidableEq, Repr

/-- Function `main`, from the return of `cmd.Parse` to the call of `Simulator::Run`.
`NS3_OPENFLOW` tells whether the macro of that name is defined; `g` holds
the globals as the option setters called by `cmd.Parse` left them.  Trace
files and the simulation run itself are not part of the embedding. -/
def main (NS3_OPENFLOW : Bool) (g : Globals) : Except Fault Simulation :=
  if NS3_OPENFLOW then
    let logComponents :=
      if g.verbose then
        ["OpenFlowLoadBalancerSimulation", "OpenFlowInterface", "OpenFlowSwitchNetDevice"]
      else []
    let log1 := [LogEntry.text "Create searvers.", LogEntry.number g.searver_number]
    -- `searvers.Create (searver_number)`: the `int` converts to `uint32_t`
    let searvers := NodeContainer.Create 0 (g.searver_number % 4294967296).toNat
    let csmaSwitch := NodeContainer.Create searvers.length 1
    let log2 := log1 ++ [LogEntry.text "Build Topology"]
    match linkLoop g.searver_number searvers csmaSwitch g.searver_number.toNat 0
        { searverDevices := [], switchDevices := [], installs := 0 } with
    | .error e => .error e
    | .ok links =>
      match Container.Get csmaSwitch 0 with
      | .error e => .error e
      | .ok switchNode =>
        let (log3, sw) := policyDispatch g.lb_type switchNode links.switchDevices
        .ok { log := log2 ++ log3 ++
                [LogEntry.text "Assign IP Addresses.", LogEntry.text "Configure Tracing.",
                 LogEntry.text "Run Simulation."]
              logComponents := logComponents
              searvers := searvers
              csmaSwitch := csmaSwitch
              searverDevices := links.searverDevices
              switchDevices := links.switchDevices
              installs := links.installs
              switch := sw
              internet := searvers
              addressed := links.searverDevices }
  else
    .ok { log := [LogEntry.text "NS-3 OpenFlow is not enabled. Cannot run simulation."]
          logComponents := []
          searvers := []
          csmaSwitch := []
          searverDevices := []
          switchDevices := []
          installs := 0
          switch := none
          internet := []
          addressed := [] }

/-! ### New flows in the topology `main` has built -/

/-- The answer a controller gives the switch for the first packet of a new
flow: have it dropped, or have it forwarded to a server node. -/
inductive Decision where
  | drop
  | forward (server : Nat)
  deriving DecidableEq, Repr

/-- The answer a new flow gets at the switch node of the topology `main` has
built.  A new flow is decided by the controller handed to `swtch.Install`
(line 150): the OpenFlow switch passes it every packet that matches no flow
entry.  Where `swtch.Install` was not called (the round-robin and ip-hashing
cases, lines 153-158) the switch node carries neither an OpenFlow switch nor a
controller, and nothing answers.  The one controller `main` creates, the
`ns3::ofi::DropController` of line 149, answers every new flow by having the
switch drop it.  No statement of `main` hands the servers to a controller and
no cursor or selection exists in the program, so no answer forwards to a
server. -/
def newFlowDecision {Flow : Type} (sim : Simulation) (_flow : Flow) : Option Decision :=
  match sim.switch with
  | none => none
  | some sw =>
    match sw.controller with
    | Controller.DropController => some Decision.drop

/-! ## Theorems -/

/-! ### `atoi` reads the leading integer -/

theorem isdigit_nul (c : Char) (h : (c.toNat != 0) = false) : isdigit c = false := by
  have h0 : c.toNat = 0 := by simpa using h
  simp [isdigit, h0]

theorem isspace_nul (c : Char) (h : (c.toNat != 0) = false) : isspace c = false := by
  have h0 : c.toNat = 0 := by simpa using h
  simp [isspace, h0]

theorem sign_nul (c : Char) (h : (c.toNat != 0) = false) : c ≠ '-' ∧ c ≠ '+' := by
  have h0 : c.toNat = 0 := by simpa using h
  constructor
  · rintro rfl
    exact absurd h0 (by decide)
  · rintro rfl
    exact absurd h0 (by decide)

/-- The digit loop stops at a NUL by itself. -/
theorem atoiDigits_takeWhile_nul (cs : List Char) (acc : Nat) :
    atoiDigits (cs.takeWhile (fun c => c.toNat != 0)) acc = atoiDigits cs acc := by
  induction cs generalizing acc with
  | nil => rfl
  | cons c cs ih =>
    cases hc : (c.toNat != 0) with
    | false =>
      simp [List.takeWhile_cons, hc, atoiDigits, isdigit_nul c hc]
    | true =>
      simp [List.takeWhile_cons, hc, atoiDigits, ih]

theorem atoiSigned_takeWhile_nul (cs : List Char) :
    atoiSigned (cs.takeWhile (fun c => c.toNat != 0)) = atoiSigned cs := by
  cases cs with
  | nil => rfl
  | cons c cs =>
    cases hc : (c.toNat != 0) with
    | false =>
      obtain ⟨hm, hp⟩ := sign_nul c hc
      simp [List.takeWhile_cons, hc, atoiSigned, hm, hp, atoiDigits, isdigit_nul c hc]
    | true =>
      have h2 := atoiDigits_takeWhile_nul (c :: cs) 0
      simp only [List.takeWhile_cons, hc, if_true] at h2
      simp only [List.takeWhile_cons, hc, if_true, atoiSigned, atoiDigits_takeWhile_nul, h2]

theorem atoiSkipSpace_takeWhile_nul (cs : List Char) :
    atoiSigned (atoiSkipSpace (cs.takeWhile (fun c => c.toNat != 0))) =
      atoiSigned (atoiSkipSpace cs) := by
  induction cs with
  | nil => rfl
  | cons c cs ih =>
    cases hc : (c.toNat != 0) with
    | false =>
      obtain ⟨hm, hp⟩ := sign_nul c hc
      simp [List.takeWhile_cons, hc, atoiSkipSpace, isspace_nul c hc, atoiSigned, hm, hp,
        atoiDigits, isdigit_nul c hc]
    | true =>
      cases hs : isspace c with
      | true => simp [List.takeWhile_cons, hc, atoiSkipSpace, hs, ih]
      | false =>
        have h2 := atoiSigned_takeWhile_nul (c :: cs)
        simp only [List.takeWhile_cons, hc, if_true] at h2
        simp [List.takeWhile_cons, hc, atoiSkipSpace, hs, h2]

theorem atoiSkipSpace_eq_dropWhile (cs : List Char) :
    atoiSkipSpace cs = cs.dropWhile isspace := by
  induction cs with
  | nil => rfl
  | cons c cs ih =>
    cases hs : isspace c <;> simp [atoiSkipSpace, List.dropWhile_cons, hs, ih]

/-- The digit loop computes the decimal value of the digits it reads, on top
of the accumulator shifted by as many places. -/
theorem atoiDigits_eq (cs : List Char) (acc : Nat) :
    atoiDigits cs acc =
      acc * 10 ^ (cs.takeWhile isdigit).length + decimalValue (cs.takeWhile isdigit) := by
  induction cs generalizing acc with
  | nil => simp [atoiDigits, decimalValue]
  | cons c cs ih =>
    cases hd : isdigit c with
    | false => simp [atoiDigits, hd, List.takeWhile_cons, decimalValue]
    | true =>
      simp only [atoiDigits, hd, if_true, List.takeWhile_cons, decimalValue, List.length_cons, ih]
      ring

theorem atoiDigits_zero (cs : List Char) :
    atoiDigits cs 0 = decimalValue (cs.takeWhile isdigit) := by
  simp [atoiDigits_eq]

/-- The scan of `atoi` over the C string of `value` yields `leadingInteger`. -/
theorem atoiSigned_c_str (value : String) :
    atoiSigned (atoiSkipSpace (c_str value)) = leadingInteger value := by
  unfold c_str leadingInteger
  rw [atoiSkipSpace_takeWhile_nul, atoiSkipSpace_eq_dropWhile]
  generalize value.data.dropWhile isspace = rest
  cases rest with
  | nil => simp [atoiSigned, decimalValue]
  | cons c cs =>
    by_cases hm : c = '-'
    · subst hm
      simp [atoiSigned, atoiDigits_zero]
    · by_cases hp : c = '+'
      · subst hp
        simp [atoiSigned, atoiDigits_zero]
      · simp only [atoiSigned, hm, hp, if_false, atoiDigits_zero]
        split
        · rename_i heq
          exact absurd (List.cons.inj heq).1 hm
        · rename_i heq
          exact absurd (List.cons.inj heq).1 hp
        · rfl

theorem atoi_c_str (value : String)
    (h : -2147483648 ≤ leadingInteger value ∧ leadingInteger value ≤ 2147483647) :
    atoi (c_str value) = some (leadingInteger value) := by
  simp only [atoi, atoiSigned_c_str]
  rw [if_pos h]


/-! ### The link loop and `main` in closed form -/

theorem Create_get (b n j : Nat) (h : j < n) :
    (NodeContainer.Create b n).get? j = some (b + j) := by
  simp [NodeContainer.Create, List.getElem?_map, List.getElem?_range h]

theorem linkLoop_eq (n : Int) (searvers : List Nat) (sw : Nat) (f : Nat → Nat)
    (hs : ∀ j : Nat, (j : Int) < n → searvers.get? j = some (f j)) :
    ∀ (d fuel i : Nat) (st : Links), (i : Int) + d = n → d ≤ fuel →
      linkLoop n searvers [sw] fuel i st = .ok
        { searverDevices := st.searverDevices ++
            (List.range d).map (fun j => { node := f (i + j), channel := st.installs + j })
          switchDevices := st.switchDevices ++
            (List.range d).map (fun j => { node := sw, channel := st.installs + j })
          installs := st.installs + d } := by
  intro d
  induction d with
  | zero =>
    intro fuel i st hi _
    have hn : ¬ ((i : Int) < n) := by omega
    unfold linkLoop
    simp [hn]
  | succ d ih =>
    intro fuel i st hi hf
    have hlt : (i : Int) < n := by omega
    obtain ⟨fuel, rfl⟩ : ∃ k, fuel = k + 1 := ⟨fuel - 1, by omega⟩
    have hrec := ih fuel (i + 1)
      { searverDevices := st.searverDevices ++ [{ node := f i, channel := st.installs }]
        switchDevices := st.switchDevices ++ [{ node := sw, channel := st.installs }]
        installs := st.installs + 1 } (by push_cast; omega) (by omega)
    unfold linkLoop
    simp only [hlt, if_true, Int.toNat_ofNat, Container.Get, hs i hlt, CsmaHelper.Install,
      List.map_cons, List.map_nil, List.get?_cons_zero, List.get?_cons_succ]
    have hcast : ((i : Int) + 1) = ((i + 1 : Nat) : Int) := by push_cast; rfl
    rw [hcast, hrec]
    simp only [List.range_succ_eq_map, List.map_cons, List.map_map, List.append_assoc,
      List.singleton_append, Nat.add_zero]
    have h1 : (fun j => ({ node := f (i + 1 + j), channel := st.installs + 1 + j } : NetDevice)) =
        (fun j => ({ node := f (i + j), channel := st.installs + j } : NetDevice)) ∘ Nat.succ := by
      funext j
      simp [Function.comp, Nat.succ_eq_add_one, Nat.add_assoc, Nat.add_comm 1 j]
    have h2 : (fun j => ({ node := sw, channel := st.installs + 1 + j } : NetDevice)) =
        (fun j => ({ node := sw, channel := st.installs + j } : NetDevice)) ∘ Nat.succ := by
      funext j
      simp [Function.comp, Nat.succ_eq_add_one, Nat.add_assoc, Nat.add_comm 1 j]
    rw [h1, h2, Nat.add_assoc, Nat.add_comm 1 d]


theorem Create_length (b n : Nat) : (NodeContainer.Create b n).length = n := by
  simp [NodeContainer.Create]

theorem Create_one (b : Nat) : NodeContainer.Create b 1 = [b] := by
  simp [NodeContainer.Create, List.range_succ]

theorem Create_zero_eq (n : Nat) : NodeContainer.Create 0 n = List.range n := by
  simp [NodeContainer.Create]

/-- For a server count in `[0, 2^31)` the run reaches `Simulator::Run`, and
what it has built is known in closed form: server `j` is node `j`, the switch
is node `n`, and link `j` joins the two on channel `j`. -/
theorem main_eq (g : Globals) (h0 : 0 ≤ g.searver_number)
    (h1 : g.searver_number ≤ 2147483647) :
    main true g = .ok
      { log := [LogEntry.text "Create searvers.", LogEntry.number g.searver_number,
                LogEntry.text "Build Topology"] ++
          (policyDispatch g.lb_type g.searver_number.toNat
            ((List.range g.searver_number.toNat).map
              (fun j => { node := g.searver_number.toNat, channel := j }))).1 ++
          [LogEntry.text "Assign IP Addresses.", LogEntry.text "Configure Tracing.",
           LogEntry.text "Run Simulation."]
        logComponents :=
          if g.verbose then
            ["OpenFlowLoadBalancerSimulation", "OpenFlowInterface", "OpenFlowSwitchNetDevice"]
          else []
        searvers := List.range g.searver_number.toNat
        csmaSwitch := [g.searver_number.toNat]
        searverDevices :=
          (List.range g.searver_number.toNat).map (fun j => { node := j, channel := j })
        switchDevices :=
          (List.range g.searver_number.toNat).map
            (fun j => { node := g.searver_number.toNat, channel := j })
        installs := g.searver_number.toNat
        switch :=
          (policyDispatch g.lb_type g.searver_number.toNat
            ((List.range g.searver_number.toNat).map
              (fun j => { node := g.searver_number.toNat, channel := j }))).2
        internet := List.range g.searver_number.toNat
        addressed :=
          (List.range g.searver_number.toNat).map (fun j => { node := j, channel := j }) } := by
  obtain ⟨n, hn⟩ : ∃ n : Nat, g.searver_number = (n : Int) := ⟨g.searver_number.toNat, by omega⟩
  have hmod : (g.searver_number % 4294967296).toNat = n := by
    rw [hn]
    omega
  have htn : g.searver_number.toNat = n := by
    rw [hn]
    rfl
  have hloop := linkLoop_eq g.searver_number (List.range n) n (fun j => j)
    (fun j hj => by
      have : j < n := by omega
      simp [List.getElem?_range this])
    n n 0 { searverDevices := [], switchDevices := [], installs := 0 }
    (by rw [hn]; simp) (Nat.le_refl n)
  simp only [main, if_true, hmod, htn, Create_length, Create_one, Create_zero_eq, List.length_range]
  rw [show (0 : Int) = ((0 : Nat) : Int) from rfl, hloop]
  simp [Container.Get]

/-! ### The claims -/

/-- C1: for each of the strings "random", "round-robin" and "ip-hashing",
`SetType` returns true and leaves `lb_type` equal to `OFLB_RANDOM`,
`OFLB_ROUND_ROBIN` and `OFLB_IP_HASHING` respectively, whatever the globals
were before the call (the other two globals are not touched). -/
theorem SetType_recognises_policy_names (g : Globals) :
    SetType "random" g = (true, { g with lb_type := OFLB_RANDOM }) ∧
    SetType "round-robin" g = (true, { g with lb_type := OFLB_ROUND_ROBIN }) ∧
    SetType "ip-hashing" g = (true, { g with lb_type := OFLB_IP_HASHING }) := by
  refine ⟨?_, ?_, ?_⟩
  · simp [SetType]
  · simp [SetType]
  · simp [SetType]

/-- C2: for every string other than exactly "random", "round-robin" and
"ip-hashing", `SetType` returns false and `lb_type`, `searver_number` and
`verbose` all keep the values they had before the call. -/
theorem SetType_rejects_unknown_name (value : String) (g : Globals)
    (h1 : value ≠ "random") (h2 : value ≠ "round-robin")
    (h3 : value ≠ "ip-hashing") :
    SetType value g = (false, g) := by
  simp [SetType, h1, h2, h3]

/-- The empty string and the case variant "Random" are unknown policy names:
`SetType` returns false on both and leaves the initial globals as they were. -/
theorem SetType_rejects_unknown_name_witness :
    ("Random" ≠ "random" ∧ "Random" ≠ "round-robin" ∧ "Random" ≠ "ip-hashing") ∧
    SetType "Random" initialGlobals = (false, initialGlobals) ∧
    SetType "" initialGlobals = (false, initialGlobals) :=
  ⟨by decide,
   SetType_rejects_unknown_name "Random" initialGlobals
     (by decide) (by decide) (by decide),
   by decide⟩


/-- C3, as stated, fails: the option value "0" denotes zero servers, and
`SetSearverNumber` returns true on it (not false), storing 0 in
`searver_number`. -/
theorem SetSearverNumber_zero_counterexample :
    leadingInteger "0" = 0 ∧
    SetSearverNumber "0" initialGlobals =
      some (true, { initialGlobals with searver_number := 0 }) ∧
    ¬ ((SetSearverNumber "0" initialGlobals).map Prod.fst = some false) := by
  decide

/-- C3, amended: for every option value that denotes zero servers,
`SetSearverNumber` returns true and sets `searver_number` to 0, and `main`
run on that configuration is not refused: it reaches the simulation with no
server nodes, no links and only the switch node. -/
theorem SetSearverNumber_accepts_zero (value : String) (g : Globals)
    (h : leadingInteger value = 0) :
    SetSearverNumber value g = some (true, { g with searver_number := 0 }) ∧
    ∃ sim, main true { g with searver_number := 0 } = .ok sim ∧
      sim.searvers = [] ∧ sim.searverDevices = [] ∧ sim.switchDevices = [] ∧
      sim.installs = 0 ∧ sim.csmaSwitch = [0] := by
  constructor
  · have ha := atoi_c_str value (by rw [h]; decide)
    simp [SetSearverNumber, ha, h]
  · exact ⟨_, main_eq { g with searver_number := 0 } (Int.le_refl 0) (by simp),
      rfl, rfl, rfl, rfl, rfl⟩

/-- The option value "0" denotes zero servers: it is accepted, and the run
builds a topology without servers. -/
theorem SetSearverNumber_accepts_zero_witness :
    leadingInteger "0" = 0 ∧
    (SetSearverNumber "0" initialGlobals =
        some (true, { initialGlobals with searver_number := 0 }) ∧
      ∃ sim, main true { initialGlobals with searver_number := 0 } = .ok sim ∧
        sim.searvers = [] ∧ sim.searverDevices = [] ∧ sim.switchDevices = [] ∧
        sim.installs = 0 ∧ sim.csmaSwitch = [0]) :=
  ⟨by decide, SetSearverNumber_accepts_zero "0" initialGlobals (by decide)⟩

/-- C4: in the policy dispatch of `main`, something is installed on the
switch node if and only if `lb_type` is `OFLB_RANDOM`, and then it is the
DropController together with the switch devices; for `OFLB_ROUND_ROBIN` and
`OFLB_IP_HASHING` the dispatch emits its log line and installs nothing. -/
theorem policyDispatch_only_random_installs (lb_type : oflb_type) (switchNode : Nat)
    (switchDevices : List NetDevice) :
    ((policyDispatch lb_type switchNode switchDevices).2.isSome = true ↔
      lb_type = OFLB_RANDOM) ∧
    policyDispatch OFLB_RANDOM switchNode switchDevices =
      ([LogEntry.text "Using Random Load Balancer."],
       some { node := switchNode, ports := switchDevices,
              controller := Controller.DropController }) ∧
    policyDispatch OFLB_ROUND_ROBIN switchNode switchDevices =
      ([LogEntry.text "Using Round-Robin Load Balancer."], none) ∧
    policyDispatch OFLB_IP_HASHING switchNode switchDevices =
      ([LogEntry.text "Using IP-Hashing Load Balancer."], none) := by
  refine ⟨?_, rfl, rfl, rfl⟩
  cases lb_type <;> simp [policyDispatch]

/-- C5, as stated, fails: run with the default four servers and the
round-robin or the ip-hashing policy, `main` leaves the switch node without
any controller, whereas with the random policy the DropController is
there. -/
theorem dispatch_fall_through_counterexample :
    (main true { initialGlobals with lb_type := OFLB_ROUND_ROBIN }).toOption.map
        Simulation.switch = some none ∧
    (main true { initialGlobals with lb_type := OFLB_IP_HASHING }).toOption.map
        Simulation.switch = some none ∧
    (main true initialGlobals).toOption.map
        (fun sim => sim.switch.map OpenFlowSwitch.controller) =
      some (some Controller.DropController) := by
  decide

/-- C5, amended: when the selected policy is round-robin or ip-hashing, the
policy dispatch of `main` logs the choice and leaves the `switch` statement:
the run reaches the simulation with nothing installed on the switch node. -/
theorem dispatch_round_robin_ip_hashing_install_nothing (g : Globals)
    (h0 : 0 ≤ g.searver_number) (h1 : g.searver_number ≤ 2147483647)
    (ht : g.lb_type = OFLB_ROUND_ROBIN ∨ g.lb_type = OFLB_IP_HASHING) :
    ∃ sim, main true g = .ok sim ∧ sim.switch = none ∧
      LogEntry.text
        (if g.lb_type = OFLB_ROUND_ROBIN then "Using Round-Robin Load Balancer."
         else "Using IP-Hashing Load Balancer.") ∈ sim.log := by
  refine ⟨_, main_eq g h0 h1, ?_, ?_⟩
  · rcases ht with ht | ht <;> simp [ht, policyDispatch]
  · rcases ht with ht | ht <;> simp [ht, policyDispatch]

/-- With two servers and the round-robin policy the run installs nothing on
the switch node. -/
theorem dispatch_round_robin_ip_hashing_install_nothing_witness :
    (0 ≤ (2 : Int) ∧ (2 : Int) ≤ 2147483647) ∧
    ∃ sim, main true { verbose := true, searver_number := 2, lb_type := OFLB_ROUND_ROBIN } =
        .ok sim ∧ sim.switch = none ∧
      LogEntry.text "Using Round-Robin Load Balancer." ∈ sim.log :=
  ⟨by decide,
   dispatch_round_robin_ip_hashing_install_nothing
     { verbose := true, searver_number := 2, lb_type := OFLB_ROUND_ROBIN }
     (by decide) (by decide) (Or.inl rfl)⟩

/-- C6, as stated, fails: run with three servers and the round-robin policy,
`main` builds the servers 0, 1, 2 and installs nothing on the switch node, so
the four new flows F1, F2, F3, F4 get no answer at all; they are not assigned
to the first, second, third and first server. -/
theorem roundRobin_assignment_counterexample :
    (main true { verbose := false, searver_number := 3, lb_type := OFLB_ROUND_ROBIN }).toOption.map
        (fun sim => (sim.searvers, sim.switch, [1, 2, 3, 4].map (newFlowDecision sim))) =
      some ([0, 1, 2], none, [none, none, none, none]) ∧
    ¬ ((main true { verbose := false, searver_number := 3,
                    lb_type := OFLB_ROUND_ROBIN }).toOption.map
        (fun sim => [1, 2, 3, 4].map (newFlowDecision sim)) =
      some [some (Decision.forward 0), some (Decision.forward 1),
            some (Decision.forward 2), some (Decision.forward 0)]) := by
  decide

/-- C6, amended: with the round-robin policy selected, for every server
count in `[0, 2^31)` the run logs the choice and installs nothing on the
switch node, so on the pool it has built the `k`-th new flow of any sequence
gets no answer, and no new flow is assigned to any server. -/
theorem roundRobin_assigns_no_flow (Flow : Type) (g : Globals) (flows : List Flow) (k : Nat)
    (h0 : 0 ≤ g.searver_number) (h1 : g.searver_number ≤ 2147483647)
    (ht : g.lb_type = OFLB_ROUND_ROBIN) (hk : k < flows.length) :
    ∃ sim, main true g = .ok sim ∧
      (sim.searvers.length : Int) = g.searver_number ∧
      sim.switch = none ∧
      LogEntry.text "Using Round-Robin Load Balancer." ∈ sim.log ∧
      (flows.map (newFlowDecision sim))[k]? = some none ∧
      ∀ (flow : Flow) (server : Nat),
        newFlowDecision sim flow ≠ some (Decision.forward server) := by
  have hn : (g.searver_number.toNat : Int) = g.searver_number := Int.toNat_of_nonneg h0
  refine ⟨_, main_eq g h0 h1, ?_, ?_, ?_, ?_, ?_⟩
  · simpa using hn
  · simp [ht, policyDispatch]
  · simp [ht, policyDispatch]
  · simp [newFlowDecision, ht, policyDispatch, List.getElem?_map, List.getElem?_eq_getElem hk]
  · intro flow server
    simp [newFlowDecision, ht, policyDispatch]

/-- Scenario A on the program: three servers, round-robin, four new flows;
the fourth (`k = 3`) gets no answer. -/
theorem roundRobin_assigns_no_flow_witness :
    ((0 : Int) ≤ 3 ∧ (3 : Int) ≤ 2147483647 ∧ 3 < [1, 2, 3, 4].length) ∧
    ∃ sim, main true { verbose := false, searver_number := 3, lb_type := OFLB_ROUND_ROBIN } =
        .ok sim ∧
      (sim.searvers.length : Int) = 3 ∧
      sim.switch = none ∧
      LogEntry.text "Using Round-Robin Load Balancer." ∈ sim.log ∧
      ([1, 2, 3, 4].map (newFlowDecision sim))[3]? = some none ∧
      ∀ (flow : Nat) (server : Nat),
        newFlowDecision sim flow ≠ some (Decision.forward server) :=
  ⟨by decide,
   roundRobin_assigns_no_flow Nat
     { verbose := false, searver_number := 3, lb_type := OFLB_ROUND_ROBIN } [1, 2, 3, 4] 3
     (by decide) (by decide) rfl (by decide)⟩

/-- C7: when no option setter has been applied the globals are
`verbose = false`, `searver_number = 4 = OF_DEFAULT_SEARVER_NUMBER` and
`lb_type = OFLB_RANDOM`, and the run on them builds four servers, one link to
the switch for each, and installs the DropController on the switch node over
the four switch-side devices. -/
theorem default_configuration :
    initialGlobals = { verbose := false, searver_number := 4, lb_type := OFLB_RANDOM } ∧
    OF_DEFAULT_SEARVER_NUMBER = 4 ∧
    ∃ sim, main true initialGlobals = .ok sim ∧
      sim.searvers = [0, 1, 2, 3] ∧
      sim.csmaSwitch = [4] ∧
      sim.searverDevices.length = 4 ∧
      sim.switch = some { node := 4, ports := sim.switchDevices,
                          controller := Controller.DropController } ∧
      sim.logComponents = [] := by
  refine ⟨rfl, rfl, _, main_eq initialGlobals (by decide) (by decide), ?_, ?_, ?_, ?_, ?_⟩ <;>
    decide

/-- C8: for every server count `n` with `0 <= n` (an `int`), the run reaches
the simulation, the link loop has run exactly `n` times, `searverDevices` and
`switchDevices` have length `n`, and for every `i < n` their `i`-th entries
are the first and the second device of the `i`-th link installed, the link
between server `i` and the single switch node. -/
theorem one_link_per_server (g : Globals) (h0 : 0 ≤ g.searver_number)
    (h1 : g.searver_number ≤ 2147483647) :
    ∃ sim sw, main true g = .ok sim ∧
      sim.csmaSwitch = [sw] ∧
      (sim.installs : Int) = g.searver_number ∧
      (sim.searvers.length : Int) = g.searver_number ∧
      (sim.searverDevices.length : Int) = g.searver_number ∧
      (sim.switchDevices.length : Int) = g.searver_number ∧
      ∀ i : Nat, (i : Int) < g.searver_number →
        ∃ s, sim.searvers[i]? = some s ∧
          sim.searverDevices[i]? = (CsmaHelper.Install i [s, sw])[0]? ∧
          sim.switchDevices[i]? = (CsmaHelper.Install i [s, sw])[1]? ∧
          sim.searverDevices[i]? = some { node := s, channel := i } ∧
          sim.switchDevices[i]? = some { node := sw, channel := i } := by
  have hn : (g.searver_number.toNat : Int) = g.searver_number := Int.toNat_of_nonneg h0
  refine ⟨_, g.searver_number.toNat, main_eq g h0 h1, rfl, ?_, ?_, ?_, ?_, ?_⟩
  · simpa using hn
  · simpa using hn
  · simpa using hn
  · simpa using hn
  · intro i hi
    have hlt : i < g.searver_number.toNat := by omega
    refine ⟨i, ?_, ?_, ?_, ?_, ?_⟩ <;>
      simp [CsmaHelper.Install, List.getElem?_map, List.getElem?_range hlt]

/-- With three servers the run builds three links. -/
theorem one_link_per_server_witness :
    (0 ≤ (3 : Int) ∧ (3 : Int) ≤ 2147483647) ∧
    ∃ sim sw, main true { verbose := false, searver_number := 3, lb_type := OFLB_IP_HASHING } =
        .ok sim ∧
      sim.csmaSwitch = [sw] ∧
      (sim.installs : Int) = 3 ∧
      (sim.searvers.length : Int) = 3 ∧
      (sim.searverDevices.length : Int) = 3 ∧
      (sim.switchDevices.length : Int) = 3 ∧
      ∀ i : Nat, (i : Int) < 3 →
        ∃ s, sim.searvers[i]? = some s ∧
          sim.searverDevices[i]? = (CsmaHelper.Install i [s, sw])[0]? ∧
          sim.switchDevices[i]? = (CsmaHelper.Install i [s, sw])[1]? ∧
          sim.searverDevices[i]? = some { node := s, channel := i } ∧
          sim.switchDevices[i]? = some { node := sw, channel := i } :=
  ⟨by decide,
   one_link_per_server { verbose := false, searver_number := 3, lb_type := OFLB_IP_HASHING }
     (by decide) (by decide)⟩

/-- C9: for every string whose leading integer fits in a 32-bit `int`,
`SetSearverNumber` returns true and sets `searver_number` to that integer (the
value of the longest optionally-signed decimal prefix after leading
whitespace, 0 when there is none), leaving `lb_type` and `verbose` as they
were; so "abc" and "" are accepted as 0 servers and "-3" as -3. -/
theorem SetSearverNumber_never_rejects (value : String) (g : Globals)
    (h : -2147483648 ≤ leadingInteger value ∧ leadingInteger value ≤ 2147483647) :
    SetSearverNumber value g =
      some (true, { g with searver_number := leadingInteger value }) ∧
    SetSearverNumber "abc" g = some (true, { g with searver_number := 0 }) ∧
    SetSearverNumber "" g = some (true, { g with searver_number := 0 }) ∧
    SetSearverNumber "-3" g = some (true, { g with searver_number := -3 }) := by
  refine ⟨?_, ?_, ?_, ?_⟩
  · simp [SetSearverNumber, atoi_c_str value h]
  · have ha : atoi (c_str "abc") = some 0 := by decide
    simp [SetSearverNumber, ha]
  · have ha : atoi (c_str "") = some 0 := by decide
    simp [SetSearverNumber, ha]
  · have ha : atoi (c_str "-3") = some (-3) := by decide
    simp [SetSearverNumber, ha]

/-- The option value " +12 servers" is accepted as 12 servers. -/
theorem SetSearverNumber_never_rejects_witness :
    (-2147483648 ≤ leadingInteger " +12 servers" ∧
      leadingInteger " +12 servers" ≤ 2147483647) ∧
    leadingInteger " +12 servers" = 12 ∧
    (SetSearverNumber " +12 servers" initialGlobals =
        some (true, { initialGlobals with searver_number := leadingInteger " +12 servers" }) ∧
      SetSearverNumber "abc" initialGlobals =
        some (true, { initialGlobals with searver_number := 0 }) ∧
      SetSearverNumber "" initialGlobals =
        some (true, { initialGlobals with searver_number := 0 }) ∧
      SetSearverNumber "-3" initialGlobals =
        some (true, { initialGlobals with searver_number := -3 })) :=
  ⟨by decide, by decide,
   SetSearverNumber_never_rejects " +12 servers" initialGlobals (by decide)⟩

end OpenFlowLoadBalancer
